import Mathlib

/-!
Verification of the NeMo post-training-quantization fragment:
`nemo/collections/llm/quantization/quantizer.py` and
`nemo/collections/nlp/models/language_modeling/megatron/falcon/falcon_spec.py`.

The Python code is shallowly embedded: dictionaries become structures or
association lists, in-place mutation becomes explicit state passing, raised
exceptions become `Except`, and the sequencing of external-collaborator calls
becomes explicit event traces.
-/

namespace NeMoQuant

/-! ## Basic string utilities

Embeds Python's `needle in haystack` substring test used by
`"awq" in algorithm` and `"int8" in algorithm` in `Quantizer.quantize`. -/

/-- `charsLead n h` is true when the char list `n` is an initial segment of `h`. -/
def charsLead : List Char → List Char → Bool
  | [], _ => true
  | _ :: _, [] => false
  | a :: as, b :: bs => a == b && charsLead as bs

/-- `charsWithin n h` is true when `n` occurs contiguously inside `h`. -/
def charsWithin (needle : List Char) : List Char → Bool
  | [] => charsLead needle []
  | b :: bs => charsLead needle (b :: bs) || charsWithin needle bs

/-- Python's `needle in hay` for strings. -/
def strWithin (needle hay : String) : Bool :=
  charsWithin needle.toList hay.toList

/-! ## Data model: configuration dataclasses (quantizer.py lines 49-64) -/

/-- Python `Union[str, int]` values that a dtype field can hold. -/
inductive PyDtype
  | int (n : Int)
  | str (s : String)
deriving DecidableEq, Repr

/-- `SUPPORTED_DTYPE = [16, "16", "bf16"]` (quantizer.py line 49). -/
def SUPPORTED_DTYPE : List PyDtype := [.int 16, .str "16", .str "bf16"]

/-- The keys of the `QUANT_CFG_CHOICES` dictionary (quantizer.py lines 33-40).
The dictionary's values are external modelopt template recipes, so recipes are
treated as parameters elsewhere; only the key set is fixed by this file. -/
def QUANT_CFG_KEYS : List String :=
  ["int8", "int8_sq", "fp8", "int4_awq", "w4a8_awq", "int4"]

/-- `QuantizationConfig` dataclass (quantizer.py lines 51-56).
`enable_kv_cache` is declared `bool = True` in Python but `quantize` tests it
with `is None`, so it is embedded as `Option Bool` whose default is
`some true`, matching the Python default `True` (not `None`). -/
structure QuantizationConfig where
  algorithm : Option String := some "fp8"
  awq_block_size : Int := 128
  sq_alpha : ℚ := (1 : ℚ) / 2
  enable_kv_cache : Option Bool := some true
deriving DecidableEq, Repr

/-- `ExportConfig` dataclass (quantizer.py lines 58-64). -/
structure ExportConfig where
  path : String
  dtype : PyDtype := .str "bf16"
  decoder_type : Option String := none
  inference_tensor_parallel : Int := 1
  inference_pipeline_parallel : Int := 1
deriving DecidableEq, Repr

/-! ## Data model: quantization recipes

A modelopt recipe is a nested dictionary.  `Quantizer.quantize` touches the
keys `quant_cfg` / `*weight_quantizer` / `*output_quantizer` / `algorithm`
and, inside a weight quantizer, `block_sizes[-1]`.  `block_sizes` is a
dictionary keyed by integers, embedded as an association list with
dictionary-update semantics. -/

/-- Python `num_bits` values: either an int (e.g. `8`) or a tuple `(4, 3)`. -/
inductive NumBits
  | int (n : Int)
  | pair (mantissa exponent : Nat)
deriving DecidableEq, Repr

/-- Lookup in a Python-style dictionary embedded as an association list. -/
def dictGet (d : List (Int × Int)) (k : Int) : Option Int :=
  match d with
  | [] => none
  | (k1, v1) :: rest => if k1 == k then some v1 else dictGet rest k

/-- Python dictionary assignment `d[k] = v` on an association list: overwrite
the existing binding if present, otherwise append a new one. -/
def dictSet (d : List (Int × Int)) (k v : Int) : List (Int × Int) :=
  match d with
  | [] => [(k, v)]
  | (k1, v1) :: rest =>
      if k1 == k then (k1, v) :: rest else (k1, v1) :: dictSet rest k v

/-- A single quantizer attribute dictionary inside a recipe's `quant_cfg`. -/
structure QuantizerCfg where
  num_bits : NumBits
  block_sizes : List (Int × Int)
  enable : Bool
deriving DecidableEq, Repr

/-- The `*weight_quantizer` entry, which modelopt templates give either as a
single attribute dictionary or as a (non-empty) list of them; the code takes
element `[0]` in the list case (quantizer.py lines 159-161). -/
inductive WeightQuantizerEntry
  | single (cfg : QuantizerCfg)
  | many (head : QuantizerCfg) (tail : List QuantizerCfg)
deriving DecidableEq, Repr

/-- The `*output_quantizer` dictionary written by quantizer.py lines 171-175. -/
structure OutputQuantizerCfg where
  num_bits : NumBits
  axis : Option Int
  enable : Bool
deriving DecidableEq, Repr

/-- The recipe's inner `quant_cfg` dictionary: the two pattern keys the code
touches, plus the untouched remaining entries. -/
structure QuantCfgInner where
  weight_quantizer : WeightQuantizerEntry
  output_quantizer : Option OutputQuantizerCfg
  rest : List (String × QuantizerCfg)
deriving DecidableEq, Repr

/-- The `algorithm` entry written for `int8_sq` (quantizer.py line 179). -/
structure AlgorithmCfg where
  method : String
  alpha : ℚ
deriving DecidableEq, Repr

/-- A top-level modelopt recipe dictionary. -/
structure QuantRecipe where
  quant_cfg : QuantCfgInner
  algorithm : Option AlgorithmCfg
deriving DecidableEq, Repr

/-! ## Recipe construction (quantizer.py lines 157-179) -/

/-- The effective KV-cache enablement (quantizer.py lines 167-169):
the caller's explicit boolean when set, otherwise enabled unless the
algorithm name contains `"int8"` or the decoder type is `"gptnext"`. -/
def effectiveKvCache (enable_kv_cache : Option Bool)
    (algorithm decoder_type : String) : Bool :=
  match enable_kv_cache with
  | some b => b
  | none => !(strWithin "int8" algorithm) && !(decoder_type == "gptnext")

/-- The in-place mutation of `quant_cfg` performed by `Quantizer.quantize`
between fetching `QUANT_CFG_CHOICES[algorithm]` and calling `mtq.quantize`
(quantizer.py lines 157-179), as a pure function on the fetched template. -/
def buildRecipe (template : QuantRecipe) (algorithm : String)
    (awq_block_size : Int) (sq_alpha : ℚ) (enable_kv_cache : Option Bool)
    (decoder_type : String) : QuantRecipe :=
  let qc := template.quant_cfg
  let qc :=
    if strWithin "awq" algorithm then
      let wq :=
        match qc.weight_quantizer with
        | .single cfg =>
            WeightQuantizerEntry.single
              { cfg with block_sizes := dictSet cfg.block_sizes (-1) awq_block_size }
        | .many c cs =>
            WeightQuantizerEntry.many
              { c with block_sizes := dictSet c.block_sizes (-1) awq_block_size } cs
      { qc with weight_quantizer := wq }
    else qc
  let enable := effectiveKvCache enable_kv_cache algorithm decoder_type
  let qc :=
    { qc with
        output_quantizer := some
          { num_bits := if algorithm == "int8_sq" then .int 8 else .pair 4 3
            axis := none
            enable := enable } }
  let alg :=
    if algorithm == "int8_sq" then some ⟨"smoothquant", sq_alpha⟩
    else template.algorithm
  { quant_cfg := qc, algorithm := alg }

/-! ## Decoder-type resolution (quantizer.py lines 67-88)

`get_modelopt_decoder_type` walks an ordered list of `(config class, label)`
pairs and returns the label of the first class the config is an instance of;
otherwise it logs one warning and returns `"llama"`.  A config descriptor is
embedded as the predicate `instOf : ArchFamily → Bool` telling which
architecture-family classes it is an instance of, and the warning side effect
as a count of warnings emitted. -/

/-- The architecture-family config classes named in the isinstance chain. -/
inductive ArchFamily
  | baichuan2 | chatglm | gemma | llama | mistral7b | mixtral
  | nemotron | qwen2 | starcoder2
deriving DecidableEq, Repr

/-- The ordered `mapping` list (quantizer.py lines 69-80). -/
def decoderTypeMapping : List (ArchFamily × String) :=
  [ (.baichuan2, "baichuan"),
    (.chatglm, "chatglm"),
    (.gemma, "gemma"),
    (.llama, "llama"),
    (.mistral7b, "llama"),
    (.mixtral, "llama"),
    (.nemotron, "gptnext"),
    (.qwen2, "qwen"),
    (.starcoder2, "gptnext") ]

/-- The isinstance walk over a mapping list; the second component counts
warnings emitted (one on fallback, none otherwise). -/
def decoderTypeScan (instOf : ArchFamily → Bool) :
    List (ArchFamily × String) → String × Nat
  | [] => ("llama", 1)
  | (fam, label) :: rest =>
      if instOf fam then (label, 0) else decoderTypeScan instOf rest

/-- `get_modelopt_decoder_type` (quantizer.py lines 67-88): label returned
and number of warnings emitted. -/
def get_modelopt_decoder_type (instOf : ArchFamily → Bool) : String × Nat :=
  decoderTypeScan instOf decoderTypeMapping

/-- `Quantizer._get_decoder_type` (quantizer.py lines 141-142):
`self.export_config.decoder_type or get_modelopt_decoder_type(config)`. -/
def quantizerGetDecoderType (export_decoder_type : Option String)
    (instOf : ArchFamily → Bool) : String :=
  match export_decoder_type with
  | some s => if s == "" then (get_modelopt_decoder_type instOf).1 else s
  | none => (get_modelopt_decoder_type instOf).1

/-! ## Quantizer construction (quantizer.py lines 111-130) -/

/-- The distinct error kinds `Quantizer.__init__` can raise, in source order:
`RuntimeError` for missing modelopt, `EnvironmentError` for a missing GPU,
and `AssertionError` for each failed configuration sanity check. -/
inductive QuantizerInitError
  | runtimeModeloptMissing
  | environmentGpuMissing
  | assertUnsupportedAlgorithm
  | assertUnsupportedDtype
deriving DecidableEq, Repr

/-- The constructed `Quantizer` object's fields set by `__init__` that later
steps read (the resolved torch dtype is produced by an external helper from
the validated dtype and is not modelled beyond the stored label). -/
structure Quantizer where
  quantization_config : QuantizationConfig
  export_config : ExportConfig
  nemo_checkpoint_path : Option String
deriving DecidableEq, Repr

/-- Whether the configured algorithm passes the construction-time sanity
check `algorithm is None or algorithm in QUANT_CFG_CHOICES` (line 127). -/
def algorithmSupported (algorithm : Option String) : Bool :=
  match algorithm with
  | none => true
  | some a => QUANT_CFG_KEYS.contains a

/-- `Quantizer.__init__` (quantizer.py lines 111-130).  `have_modelopt` and
`cuda_available` embed the environment preconditions. The checks run in
source order: toolkit, accelerator, algorithm membership, dtype membership. -/
def quantizerInit (have_modelopt cuda_available : Bool)
    (quantization_config : QuantizationConfig) (export_config : ExportConfig) :
    Except QuantizerInitError Quantizer :=
  if !have_modelopt then .error .runtimeModeloptMissing
  else if !cuda_available then .error .environmentGpuMissing
  else if !(algorithmSupported quantization_config.algorithm) then
    .error .assertUnsupportedAlgorithm
  else if !(SUPPORTED_DTYPE.contains export_config.dtype) then
    .error .assertUnsupportedDtype
  else .ok ⟨quantization_config, export_config, none⟩

/-! ## The quantize call (quantizer.py lines 145-201)

`quantize` is embedded in two complementary ways:

* `quantizeTableEffect` captures its effect on the global mutable
  `QUANT_CFG_CHOICES` table: `quant_cfg = QUANT_CFG_CHOICES[algorithm]`
  aliases the stored template, so every mutation of `quant_cfg` is a mutation
  of the table entry.
* `quantizeTrace` captures the ordered sequence of collaborator calls it
  makes, including the amax post-processing clamp threshold. -/

/-- The global table state after one `quantize` call: the entry for the
selected algorithm now holds the mutated recipe (no copy is taken), every
other entry is untouched.  With `algorithm = none` (the no-quantization path)
or a key absent from the table (a Python `KeyError`, unreachable after
`__init__` validation) the table is unchanged. -/
def quantizeTableEffect (table : String → Option QuantRecipe)
    (qcfg : QuantizationConfig) (decoder_type : String) :
    String → Option QuantRecipe :=
  match qcfg.algorithm with
  | none => table
  | some algo =>
    match table algo with
    | none => table
    | some template =>
        let recipe := buildRecipe template algo qcfg.awq_block_size
          qcfg.sq_alpha qcfg.enable_kv_cache decoder_type
        fun a => if a == algo then some recipe else table a

/-- The collaborator calls `quantize` makes, in order. -/
inductive QuantizeEvent
  | setupModel
  | mtqQuantizeCall
  | amaxPostprocess (clampMin : ℚ)
  | quantSummary
deriving DecidableEq, Repr

/-- The per-algorithm `maxbound` of the amax post-pass
(quantizer.py lines 186-192). -/
def quantizeMaxbound (algorithm : String) : Nat :=
  match algorithm with
  | "fp8" => 448
  | "int8_sq" => 127
  | _ => 0

/-- The ordered collaborator calls of one `quantize` invocation
(quantizer.py lines 145-201): nothing on the `algorithm is None` path;
otherwise setup, the external `mtq.quantize`, the amax post-pass clamping at
`0.01 * maxbound` only for decoder type `"gptnext"`, and the quant summary
print only on rank 0. -/
def quantizeTrace (algorithm : Option String) (decoder_type : String)
    (rank : Nat) : List QuantizeEvent :=
  match algorithm with
  | none => []
  | some a =>
      [.setupModel, .mtqQuantizeCall]
        ++ (if decoder_type == "gptnext" then
              [.amaxPostprocess ((quantizeMaxbound a : ℚ) / 100)]
            else [])
        ++ (if rank == 0 then [.quantSummary] else [])

/-! ## Calibration data iterator (quantizer.py lines 273-292) -/

/-- Python string slicing `s[:m]`. -/
def truncStr (s : String) (m : Nat) : String := String.mk (s.data.take m)

/-- `get_calib_data_iter` (quantizer.py lines 273-292) after the corpus has
been loaded: the corpus is the list of texts in its column, and the generator
is embedded as the finite list of batches it yields. -/
def get_calib_data_iter (dataset : List String) (batch_size : Nat)
    (calib_size : Nat) (max_sequence_length : Nat) : List (List String) :=
  let calib := max (min dataset.length calib_size) batch_size
  (List.range (calib / batch_size)).map fun i =>
    ((dataset.drop (i * batch_size)).take batch_size).map
      fun s => truncStr s max_sequence_length

/-! ## Export (quantizer.py lines 238-270) -/

/-- The externally observable steps of `Quantizer.export`, in order. -/
inductive ExportEvent
  | exportCheckpointCall
  | barrierCall
  | exportLog
  | tokenizerCopy
  | tokenizerSkipLog
deriving DecidableEq, Repr

/-- Python `a or b` on `Optional[str]` operands (an empty string is falsy). -/
def pyOrStr (a b : Option String) : Option String :=
  match a with
  | some s => if s == "" then b else some s
  | none => b

/-- The event sequence of one `Quantizer.export` call
(quantizer.py lines 238-270): the external export toolkit call, the
distributed barrier, the success log, and then — only on rank 0 and only when
a checkpoint path is known — either the tokenizer copy (source tokenizer
directory exists and destination does not) or the skip log message. -/
def exportEvents (rank : Nat) (stored_checkpoint_path : Option String)
    (arg_checkpoint_path : Option String) (src_exists dst_exists : Bool) :
    List ExportEvent :=
  [.exportCheckpointCall, .barrierCall, .exportLog]
    ++ (if rank == 0 then
          match pyOrStr arg_checkpoint_path stored_checkpoint_path with
          | none => []
          | some _ =>
              if src_exists && !dst_exists then [.tokenizerCopy]
              else [.tokenizerSkipLog]
        else [])

end NeMoQuant

namespace NeMoFalcon

/-! ## Falcon transformer layer spec (falcon_spec.py lines 44-75)

The megatron-core classes referenced by the spec are external; each is
embedded as a tag.  `ModuleSpec`, the submodule containers and the attention
mask enum are embedded structurally.  `TransformerLayerSubmodules` has no
`post_self_attn_layernorm` constructor argument (the source comment notes it
is not included in `TransformerLayerSubmodules`), so that field is an
`Option` defaulting to `none`, set by the attribute assignment on line 74. -/

/-- The external megatron-core classes and callables referenced by the spec. -/
inductive MCoreModule
  | TENorm
  | TEColumnParallelLinear
  | TEDotProductAttention
  | TERowParallelLinear
  | IdentityOp
  | SelfAttention
  | MLP
  | getBiasDropoutAdd
  | FalconTransformerLayer
deriving DecidableEq, Repr

/-- `megatron.core.transformer.enums.AttnMaskType` (external enum). -/
inductive AttnMaskType
  | padding
  | causal
  | no_mask
deriving DecidableEq, Repr

/-- `SelfAttentionSubmodules` constructor arguments used by the spec. -/
structure SelfAttentionSubmodules where
  linear_qkv : MCoreModule
  core_attention : MCoreModule
  linear_proj : MCoreModule
  q_layernorm : MCoreModule
  k_layernorm : MCoreModule
deriving DecidableEq, Repr

/-- The `ModuleSpec` built for self-attention, with its `params`
dictionary's single `attn_mask_type` entry. -/
structure AttentionModuleSpec where
  module : MCoreModule
  attn_mask_type : AttnMaskType
  submodules : SelfAttentionSubmodules
deriving DecidableEq, Repr

/-- `MLPSubmodules` constructor arguments used by the spec. -/
structure MLPSubmodules where
  linear_fc1 : MCoreModule
  linear_fc2 : MCoreModule
deriving DecidableEq, Repr

/-- The `ModuleSpec` built for the MLP. -/
structure MLPModuleSpec where
  module : MCoreModule
  submodules : MLPSubmodules
deriving DecidableEq, Repr

/-- `TransformerLayerSubmodules` restricted to the fields the spec sets;
`post_self_attn_layernorm` is not a constructor field in megatron-core and is
only attached afterwards by attribute assignment, hence the `none` default. -/
structure TransformerLayerSubmodules where
  input_layernorm : MCoreModule
  self_attention : AttentionModuleSpec
  self_attn_bda : MCoreModule
  pre_mlp_layernorm : MCoreModule
  mlp : MLPModuleSpec
  mlp_bda : MCoreModule
  post_self_attn_layernorm : Option MCoreModule := none
deriving DecidableEq, Repr

/-- The top-level `ModuleSpec` returned by `get_falcon_layer_spec`. -/
structure FalconModuleSpec where
  module : MCoreModule
  submodules : TransformerLayerSubmodules
deriving DecidableEq, Repr

/-- The `TransformerLayerSubmodules(...)` constructor call on
falcon_spec.py lines 49-72, before the attribute assignment on line 74. -/
def falconSubmodulesConstructed : TransformerLayerSubmodules :=
  { input_layernorm := .TENorm
    self_attention :=
      { module := .SelfAttention
        attn_mask_type := .causal
        submodules :=
          { linear_qkv := .TEColumnParallelLinear
            core_attention := .TEDotProductAttention
            linear_proj := .TERowParallelLinear
            q_layernorm := .IdentityOp
            k_layernorm := .IdentityOp } }
    self_attn_bda := .getBiasDropoutAdd
    pre_mlp_layernorm := .TENorm
    mlp :=
      { module := .MLP
        submodules :=
          { linear_fc1 := .TEColumnParallelLinear
            linear_fc2 := .TERowParallelLinear } }
    mlp_bda := .getBiasDropoutAdd }

/-- `get_falcon_layer_spec` (falcon_spec.py lines 44-75): raises
`ImportError` when megatron-core is unavailable, otherwise constructs the
submodules, assigns `post_self_attn_layernorm = TENorm`, and wraps them in a
`ModuleSpec` whose module is `FalconTransformerLayer`. -/
def get_falcon_layer_spec (have_megatron_core : Bool) :
    Except String FalconModuleSpec :=
  if !have_megatron_core then
    .error "megatron-core was not found. Please see the NeMo README for installation instructions: https://github.com/NVIDIA/NeMo#megatron-gpt."
  else
    let falcon_submodules := falconSubmodulesConstructed
    let falcon_submodules :=
      { falcon_submodules with post_self_attn_layernorm := some .TENorm }
    .ok { module := .FalconTransformerLayer, submodules := falcon_submodules }

end NeMoFalcon

namespace NeMoQuant

/-! ## Shared helper lemmas and sample data -/

/-- Dictionary update followed by lookup at the same key yields the value. -/
theorem dictGet_dictSet (d : List (Int × Int)) (k v : Int) :
    dictGet (dictSet d k v) k = some v := by
  induction d with
  | nil => simp [dictSet, dictGet]
  | cons p rest ih =>
      obtain ⟨k1, v1⟩ := p
      by_cases hk : k1 = k
      · simp [dictSet, dictGet, hk]
      · simp [dictSet, dictGet, hk, ih]

/-- The output quantizer written by `buildRecipe`, separated for reuse. -/
theorem buildRecipe_output_quantizer (template : QuantRecipe)
    (algorithm : String) (awq_block_size : Int) (sq_alpha : ℚ)
    (enable_kv_cache : Option Bool) (decoder_type : String) :
    (buildRecipe template algorithm awq_block_size sq_alpha enable_kv_cache
        decoder_type).quant_cfg.output_quantizer = some
      { num_bits := if algorithm == "int8_sq" then .int 8 else .pair 4 3
        axis := none
        enable := effectiveKvCache enable_kv_cache algorithm decoder_type } := by
  unfold buildRecipe
  cases h : strWithin "awq" algorithm <;> simp [h]

/-- A sample quantizer attribute dictionary used to instantiate theorems. -/
def sampleQuantizerCfg : QuantizerCfg :=
  { num_bits := .int 4, block_sizes := [(-1, 128)], enable := true }

/-- A sample recipe template used to instantiate theorems. -/
def sampleTemplate : QuantRecipe :=
  { quant_cfg :=
      { weight_quantizer := .single sampleQuantizerCfg
        output_quantizer := none
        rest := [] }
    algorithm := none }

/-- A sample recipe table holding `sampleTemplate` at key `"fp8"`. -/
def sampleTable : String → Option QuantRecipe :=
  fun a => if a == "fp8" then some sampleTemplate else none

/-! ## C1: KV-cache enable flag of the recipe's output quantizer -/

/-- C1: for every quantize call with a supported non-None algorithm, the
recipe's output-quantizer enable flag equals the caller's explicit
`enable_kv_cache` boolean when set; when the caller left it unset (`none`),
the flag is true iff the algorithm name does not contain `"int8"` and the
resolved decoder type is not `"gptnext"`. -/
theorem kv_cache_enable_flag (template : QuantRecipe) (algorithm : String)
    (awq_block_size : Int) (sq_alpha : ℚ) (enable_kv_cache : Option Bool)
    (decoder_type : String) (hsup : algorithm ∈ QUANT_CFG_KEYS) :
    ∃ oq, (buildRecipe template algorithm awq_block_size sq_alpha
        enable_kv_cache decoder_type).quant_cfg.output_quantizer = some oq ∧
      (∀ b, enable_kv_cache = some b → oq.enable = b) ∧
      (enable_kv_cache = none →
        (oq.enable = true ↔
          strWithin "int8" algorithm = false ∧ decoder_type ≠ "gptnext")) := by
  refine ⟨_, buildRecipe_output_quantizer template algorithm awq_block_size
    sq_alpha enable_kv_cache decoder_type, ?_, ?_⟩
  · intro b hb
    simp [effectiveKvCache, hb]
  · intro hnone
    simp [effectiveKvCache, hnone]

/-- Witness for C1 at `algorithm = "fp8"`, `enable_kv_cache` unset and
decoder type `"llama"`: the enable flag comes out true. -/
theorem kv_cache_enable_flag_witness :
    ∃ oq, (buildRecipe sampleTemplate "fp8" 128 ((1 : ℚ) / 2) none
        "llama").quant_cfg.output_quantizer = some oq ∧ oq.enable = true := by
  obtain ⟨oq, hq, _, hauto⟩ :=
    kv_cache_enable_flag sampleTemplate "fp8" 128 ((1 : ℚ) / 2) none "llama"
      (by decide)
  exact ⟨oq, hq, (hauto rfl).mpr (by decide)⟩

/-! ## C2: the static recipe template is mutated, not copied -/

/-- C2 counterexample: after a quantize call with algorithm `"fp8"`, the
static table entry for `"fp8"` is no longer its original template value —
`quant_cfg = QUANT_CFG_CHOICES[algorithm]` aliases the stored dictionary
instead of copying it, and the subsequent mutations write through. -/
theorem quantize_template_mutated_cex :
    quantizeTableEffect sampleTable { algorithm := some "fp8" } "llama" "fp8"
      ≠ some sampleTemplate := by
  decide

/-- C2 amended: `quantize` obtains the per-algorithm template by reference
and mutates it in place, so after a quantize call on a supported algorithm
present in the table, the static entry for that algorithm equals the mutated
recipe (`buildRecipe` of the old entry), while every other entry is
unchanged; repeated calls therefore restart from the previously mutated
value, not from the original template. -/
theorem quantize_template_mutated (table : String → Option QuantRecipe)
    (qcfg : QuantizationConfig) (decoder_type algo : String)
    (template : QuantRecipe) (halg : qcfg.algorithm = some algo)
    (ht : table algo = some template) :
    quantizeTableEffect table qcfg decoder_type algo =
      some (buildRecipe template algo qcfg.awq_block_size qcfg.sq_alpha
        qcfg.enable_kv_cache decoder_type) ∧
    ∀ a, a ≠ algo → quantizeTableEffect table qcfg decoder_type a = table a := by
  constructor
  · simp [quantizeTableEffect, halg, ht]
  · intro a ha
    simp [quantizeTableEffect, halg, ht, ha]

/-- Witness for C2's amended statement: the `"fp8"` table entry after a
quantize call equals the mutated recipe, and the `"int8"` entry is
untouched. -/
theorem quantize_template_mutated_witness :
    quantizeTableEffect sampleTable { algorithm := some "fp8" } "llama" "fp8"
        = some (buildRecipe sampleTemplate "fp8" 128 ((1 : ℚ) / 2) (some true)
          "llama") ∧
      quantizeTableEffect sampleTable { algorithm := some "fp8" } "llama"
        "int8" = sampleTable "int8" := by
  obtain ⟨h1, h2⟩ :=
    quantize_template_mutated sampleTable { algorithm := some "fp8" } "llama"
      "fp8" sampleTemplate rfl (by decide)
  exact ⟨h1, h2 "int8" (by decide)⟩

/-! ## C3: calibration iterator batch count and truncation -/

/-- C3: for a corpus of `n` texts, positive batch size `b`, requested
calibration count `c` and maximum sequence length `m`, the iterator yields
exactly `⌊e / b⌋` batches where the effective count `e = max (min n c) b` is
the requested count clamped to at most the corpus size and then to at least
one batch, and every string in every yielded batch has length at most `m`. -/
theorem calib_data_iter_spec (dataset : List String)
    (batch_size calib_size max_sequence_length : Nat) (hb : 0 < batch_size) :
    (get_calib_data_iter dataset batch_size calib_size
        max_sequence_length).length =
      max (min dataset.length calib_size) batch_size / batch_size ∧
    ∀ batch ∈ get_calib_data_iter dataset batch_size calib_size
        max_sequence_length,
      ∀ s ∈ batch, s.length ≤ max_sequence_length := by
  constructor
  · simp [get_calib_data_iter]
  · intro batch hbatch s hs
    simp only [get_calib_data_iter, List.mem_map, List.mem_range] at hbatch
    obtain ⟨i, _, rfl⟩ := hbatch
    simp only [List.mem_map] at hs
    obtain ⟨s0, _, rfl⟩ := hs
    calc (truncStr s0 max_sequence_length).length
        = (s0.data.take max_sequence_length).length := rfl
      _ ≤ max_sequence_length := List.length_take_le _ _

/-- Witness for C3 on a three-text corpus with batch size 2: one batch is
yielded and every string is truncated to at most one character. -/
theorem calib_data_iter_spec_witness :
    (get_calib_data_iter ["aa", "bb", "cc"] 2 10 1).length =
        max (min (["aa", "bb", "cc"] : List String).length 10) 2 / 2 ∧
      ∀ batch ∈ get_calib_data_iter ["aa", "bb", "cc"] 2 10 1,
        ∀ s ∈ batch, s.length ≤ 1 :=
  calib_data_iter_spec ["aa", "bb", "cc"] 2 10 1 (by decide)

/-! ## C4: decoder-type resolution -/

/-- When the descriptor matches no entry of the list, the isinstance walk
falls through to the `"llama"` default with exactly one warning. -/
theorem decoderTypeScan_fallback (instOf : ArchFamily → Bool) :
    ∀ l : List (ArchFamily × String), (∀ p ∈ l, instOf p.1 = false) →
      decoderTypeScan instOf l = ("llama", 1) := by
  intro l
  induction l with
  | nil => intro _; rfl
  | cons q rest ih =>
      intro h
      obtain ⟨fam, label⟩ := q
      have hf : instOf fam = false := h (fam, label) (by simp)
      simp only [decoderTypeScan, hf, Bool.false_eq_true, if_false]
      exact ih fun p hp => h p (List.mem_cons_of_mem _ hp)

/-- When the descriptor matches some entry, the isinstance walk returns the
label of the first matching entry, with no warning. -/
theorem decoderTypeScan_first (instOf : ArchFamily → Bool) :
    ∀ l : List (ArchFamily × String), (∃ p ∈ l, instOf p.1 = true) →
      ∃ pre fam label post,
        l = pre ++ (fam, label) :: post ∧ instOf fam = true ∧
        (∀ p ∈ pre, instOf p.1 = false) ∧
        decoderTypeScan instOf l = (label, 0) := by
  intro l
  induction l with
  | nil => rintro ⟨p, hp, _⟩; cases hp
  | cons q rest ih =>
      rintro ⟨p, hp, hmatch⟩
      obtain ⟨fam0, label0⟩ := q
      by_cases h0 : instOf fam0 = true
      · exact ⟨[], fam0, label0, rest, by simp, h0, by simp,
          by simp [decoderTypeScan, h0]⟩
      · have h0f : instOf fam0 = false := by
          cases hv : instOf fam0
          · rfl
          · exact absurd hv h0
        have hrest : ∃ p ∈ rest, instOf p.1 = true := by
          rcases List.mem_cons.mp hp with heq | hmem
          · cases heq; exact absurd hmatch h0
          · exact ⟨p, hmem, hmatch⟩
        obtain ⟨pre, fam, label, post, hl, hm, hpre, hscan⟩ := ih hrest
        refine ⟨(fam0, label0) :: pre, fam, label, post, by simp [hl], hm,
          ?_, ?_⟩
        · intro p hp2
          rcases List.mem_cons.mp hp2 with heq | hmem
          · cases heq; exact h0f
          · exact hpre p hmem
        · simp only [decoderTypeScan, h0f, Bool.false_eq_true, if_false]
          exact hscan

/-- Every architecture family occurs in the ordered mapping. -/
theorem family_mem_mapping (f : ArchFamily) :
    ∃ label, (f, label) ∈ decoderTypeMapping := by
  cases f <;>
    first
      | exact ⟨"baichuan", by decide⟩
      | exact ⟨"chatglm", by decide⟩
      | exact ⟨"gemma", by decide⟩
      | exact ⟨"llama", by decide⟩
      | exact ⟨"gptnext", by decide⟩
      | exact ⟨"qwen", by decide⟩

/-- C4: for every architecture descriptor matching some family in the
ordered mapping, `get_modelopt_decoder_type` returns the label of the first
matching entry with no warning; the per-family labels are as documented
(Baichuan2 → baichuan, ChatGLM → chatglm, Gemma → gemma, Llama / Mistral7B /
Mixtral → llama, Nemotron / Starcoder2 → gptnext, Qwen2 → qwen); and for a
descriptor matching no family it returns `"llama"` and emits exactly one
warning. -/
theorem decoder_type_resolver :
    (∀ instOf : ArchFamily → Bool, (∃ f, instOf f = true) →
      ∃ pre fam label post,
        decoderTypeMapping = pre ++ (fam, label) :: post ∧
        instOf fam = true ∧ (∀ p ∈ pre, instOf p.1 = false) ∧
        get_modelopt_decoder_type instOf = (label, 0)) ∧
    (∀ instOf : ArchFamily → Bool, (∀ f, instOf f = false) →
      get_modelopt_decoder_type instOf = ("llama", 1)) ∧
    get_modelopt_decoder_type (fun f => f == .baichuan2) = ("baichuan", 0) ∧
    get_modelopt_decoder_type (fun f => f == .chatglm) = ("chatglm", 0) ∧
    get_modelopt_decoder_type (fun f => f == .gemma) = ("gemma", 0) ∧
    get_modelopt_decoder_type (fun f => f == .llama) = ("llama", 0) ∧
    get_modelopt_decoder_type (fun f => f == .mistral7b) = ("llama", 0) ∧
    get_modelopt_decoder_type (fun f => f == .mixtral) = ("llama", 0) ∧
    get_modelopt_decoder_type (fun f => f == .nemotron) = ("gptnext", 0) ∧
    get_modelopt_decoder_type (fun f => f == .qwen2) = ("qwen", 0) ∧
    get_modelopt_decoder_type (fun f => f == .starcoder2) = ("gptnext", 0) := by
  refine ⟨?_, ?_, by decide, by decide, by decide, by decide, by decide,
    by decide, by decide, by decide, by decide⟩
  · rintro instOf ⟨f, hf⟩
    obtain ⟨label, hmem⟩ := family_mem_mapping f
    exact decoderTypeScan_first instOf decoderTypeMapping
      ⟨(f, label), hmem, hf⟩
  · intro instOf h
    exact decoderTypeScan_fallback instOf decoderTypeMapping
      fun p _ => h p.1

/-- Witness for C4: a descriptor matching no family resolves to `"llama"`
with exactly one warning. -/
theorem decoder_type_resolver_witness :
    get_modelopt_decoder_type (fun _ => false) = ("llama", 1) :=
  decoder_type_resolver.2.1 (fun _ => false) (fun _ => rfl)

/-! ## C5: export ordering and tokenizer-copy conditions -/

/-- C5: every export call is the event sequence export-toolkit call, then
barrier, then log, then a tail containing only tokenizer-copy or skip-log
events; the copy happens exactly on rank 0 with a known checkpoint path when
the source tokenizer directory exists and the destination does not, and in
every other rank-0-with-path case the step is skipped with a log message
(never an error event). -/
theorem export_ordering (rank : Nat) (stored_path arg_path : Option String)
    (src_exists dst_exists : Bool) :
    ∃ tail, exportEvents rank stored_path arg_path src_exists dst_exists =
        [.exportCheckpointCall, .barrierCall, .exportLog] ++ tail ∧
      (∀ e ∈ tail, e = ExportEvent.tokenizerCopy ∨
        e = ExportEvent.tokenizerSkipLog) ∧
      (ExportEvent.tokenizerCopy ∈ tail ↔
        rank = 0 ∧ (pyOrStr arg_path stored_path).isSome = true ∧
          src_exists = true ∧ dst_exists = false) ∧
      (ExportEvent.tokenizerSkipLog ∈ tail ↔
        rank = 0 ∧ (pyOrStr arg_path stored_path).isSome = true ∧
          ¬(src_exists = true ∧ dst_exists = false)) := by
  refine ⟨_, rfl, ?_, ?_, ?_⟩ <;>
    rcases hr : rank with _ | r <;>
    rcases hp : pyOrStr arg_path stored_path with _ | p <;>
    rcases src_exists <;>
    rcases dst_exists <;>
    simp [hp]

/-! ## C6: construction-time validation -/

/-- C6: construction fails with the `RuntimeError` kind when the
optimization toolkit is missing, with the `EnvironmentError` kind when the
accelerator is missing (toolkit present), with the algorithm assertion when
the algorithm is a string outside the supported set (`none` passes this
check), with the dtype assertion when the algorithm check passes but the
dtype is outside `{16, "16", "bf16"}`, and succeeds exactly when both
configuration checks pass. -/
theorem quantizer_init_validation (qc : QuantizationConfig)
    (ec : ExportConfig) :
    (∀ cuda, quantizerInit false cuda qc ec =
      .error .runtimeModeloptMissing) ∧
    quantizerInit true false qc ec = .error .environmentGpuMissing ∧
    (algorithmSupported qc.algorithm = false →
      quantizerInit true true qc ec = .error .assertUnsupportedAlgorithm) ∧
    (algorithmSupported qc.algorithm = true →
      ec.dtype ∉ SUPPORTED_DTYPE →
      quantizerInit true true qc ec = .error .assertUnsupportedDtype) ∧
    (qc.algorithm = none → algorithmSupported qc.algorithm = true) ∧
    ((quantizerInit true true qc ec).isOk ↔
      (algorithmSupported qc.algorithm = true ∧ ec.dtype ∈ SUPPORTED_DTYPE)) := by
  refine ⟨fun cuda => rfl, rfl, ?_, ?_, ?_, ?_⟩
  · intro halg
    simp [quantizerInit, halg]
  · intro halg hdt
    simp [quantizerInit, halg, hdt]
  · intro hnone
    simp [algorithmSupported, hnone]
  · rcases halg : algorithmSupported qc.algorithm <;>
      by_cases hdt : ec.dtype ∈ SUPPORTED_DTYPE <;>
      simp [quantizerInit, halg, hdt, Except.isOk, Except.toBool]

/-- Witness for C6: an unsupported algorithm string fails the algorithm
assertion, and an unsupported dtype fails the dtype assertion. -/
theorem quantizer_init_validation_witness :
    quantizerInit true true { algorithm := some "fp4" } { path := "out" } =
        .error .assertUnsupportedAlgorithm ∧
      quantizerInit true true { algorithm := some "fp8" }
        { path := "out", dtype := .int 32 } = .error .assertUnsupportedDtype := by
  constructor
  · exact (quantizer_init_validation { algorithm := some "fp4" }
      { path := "out" }).2.2.1 (by decide)
  · exact (quantizer_init_validation { algorithm := some "fp8" }
      { path := "out", dtype := .int 32 }).2.2.2.1 (by decide)
      (by decide)

/-! ## C7: the amax post-pass and its clamp threshold -/

/-- C7: in every quantize call with a non-None algorithm, the amax
post-processing event occurs only after the external quantize call, and it
occurs (with clamp minimum `0.01 * maxbound`) if and only if the resolved
decoder type is `"gptnext"`; the clamp minimum is `0.01 * 448` for `"fp8"`,
`0.01 * 127` for `"int8_sq"`, and `0` for every other algorithm. -/
theorem amax_postprocess_spec (a decoder_type : String) (rank : Nat) :
    ∃ tail, quantizeTrace (some a) decoder_type rank =
        QuantizeEvent.setupModel :: QuantizeEvent.mtqQuantizeCall :: tail ∧
      (∀ th, QuantizeEvent.amaxPostprocess th ∈ tail ↔
        (decoder_type = "gptnext" ∧ th = (quantizeMaxbound a : ℚ) / 100)) ∧
      (a = "fp8" → (quantizeMaxbound a : ℚ) / 100 = (448 : ℚ) / 100) ∧
      (a = "int8_sq" → (quantizeMaxbound a : ℚ) / 100 = (127 : ℚ) / 100) ∧
      (a ≠ "fp8" → a ≠ "int8_sq" → (quantizeMaxbound a : ℚ) / 100 = 0) := by
  refine ⟨_, rfl, ?_, ?_, ?_, ?_⟩
  · intro th
    by_cases hd : decoder_type = "gptnext" <;>
      rcases hrank : rank with _ | r <;>
      simp [hd]
  · intro ha
    subst ha
    norm_num [quantizeMaxbound]
  · intro ha
    subst ha
    norm_num [quantizeMaxbound]
  · intro h1 h2
    unfold quantizeMaxbound
    split
    · exact absurd rfl h1
    · exact absurd rfl h2
    · norm_num

/-- Witness for C7: for `"fp8"` on a `"gptnext"` decoder, the trace contains
the amax post-pass with clamp minimum `448 / 100`, after the external
quantize call. -/
theorem amax_postprocess_spec_witness :
    QuantizeEvent.amaxPostprocess ((448 : ℚ) / 100) ∈
      quantizeTrace (some "fp8") "gptnext" 0 := by
  obtain ⟨tail, heq, hmem, hfp8, _, _⟩ := amax_postprocess_spec "fp8" "gptnext" 0
  rw [heq]
  refine List.mem_cons_of_mem _ (List.mem_cons_of_mem _ ?_)
  refine (hmem ((448 : ℚ) / 100)).mpr ⟨rfl, ?_⟩
  rw [hfp8 rfl]

/-! ## C8: awq block-size override -/

/-- C8: for every supported algorithm whose name contains `"awq"`, the
recipe's weight quantizer (its first element when it is a list) has its
block-size entry at key `-1` overwritten with the configured
`awq_block_size`, so its last block-size entry equals `awq_block_size`; for
every supported algorithm without `"awq"` in its name, the weight quantizer
is unmodified from the template. -/
theorem awq_block_size_override (template : QuantRecipe) (algorithm : String)
    (awq_block_size : Int) (sq_alpha : ℚ) (enable_kv_cache : Option Bool)
    (decoder_type : String) (hsup : algorithm ∈ QUANT_CFG_KEYS) :
    (strWithin "awq" algorithm = false →
      (buildRecipe template algorithm awq_block_size sq_alpha enable_kv_cache
          decoder_type).quant_cfg.weight_quantizer =
        template.quant_cfg.weight_quantizer) ∧
    (strWithin "awq" algorithm = true →
      (∀ cfg, template.quant_cfg.weight_quantizer = .single cfg →
        (buildRecipe template algorithm awq_block_size sq_alpha
            enable_kv_cache decoder_type).quant_cfg.weight_quantizer =
          .single { cfg with
            block_sizes := dictSet cfg.block_sizes (-1) awq_block_size } ∧
        dictGet (dictSet cfg.block_sizes (-1) awq_block_size) (-1) =
          some awq_block_size) ∧
      (∀ c cs, template.quant_cfg.weight_quantizer = .many c cs →
        (buildRecipe template algorithm awq_block_size sq_alpha
            enable_kv_cache decoder_type).quant_cfg.weight_quantizer =
          .many { c with
            block_sizes := dictSet c.block_sizes (-1) awq_block_size } cs ∧
        dictGet (dictSet c.block_sizes (-1) awq_block_size) (-1) =
          some awq_block_size)) := by
  constructor
  · intro hawq
    simp [buildRecipe, hawq]
  · intro hawq
    constructor
    · intro cfg hcfg
      refine ⟨?_, dictGet_dictSet _ _ _⟩
      simp [buildRecipe, hawq, hcfg]
    · intro c cs hcfg
      refine ⟨?_, dictGet_dictSet _ _ _⟩
      simp [buildRecipe, hawq, hcfg]

/-- Witness for C8 at `algorithm = "int4_awq"` with block size 64 on the
sample template: the single weight quantizer's `-1` block-size entry becomes
64. -/
theorem awq_block_size_override_witness :
    (buildRecipe sampleTemplate "int4_awq" 64 0 none
        "llama").quant_cfg.weight_quantizer =
      .single { sampleQuantizerCfg with
        block_sizes := dictSet sampleQuantizerCfg.block_sizes (-1) 64 } ∧
    dictGet (dictSet sampleQuantizerCfg.block_sizes (-1) 64) (-1) = some 64 := by
  obtain ⟨_, hawq⟩ :=
    awq_block_size_override sampleTemplate "int4_awq" 64 0 none "llama"
      (by decide)
  exact (hawq (by decide)).1 sampleQuantizerCfg rfl

/-! ## C9: the default QuantizationConfig pre-sets enable_kv_cache -/

/-- C9: a default-constructed `QuantizationConfig` has `enable_kv_cache`
equal to `True` rather than unset; the automatic determination only runs for
an explicit `None` (an explicit boolean is passed through unchanged), so
with the default configuration the recipe's output-quantizer enable flag is
true for every template, algorithm and decoder type. -/
theorem default_enable_kv_cache :
    ({} : QuantizationConfig).enable_kv_cache = some true ∧
    (∀ b algorithm decoder_type,
      effectiveKvCache (some b) algorithm decoder_type = b) ∧
    (∀ template algorithm awq_block_size sq_alpha decoder_type,
      ∃ oq, (buildRecipe template algorithm awq_block_size sq_alpha
          ({} : QuantizationConfig).enable_kv_cache
          decoder_type).quant_cfg.output_quantizer = some oq ∧
        oq.enable = true) := by
  refine ⟨rfl, fun b algorithm decoder_type => rfl, ?_⟩
  intro template algorithm awq_block_size sq_alpha decoder_type
  exact ⟨_, buildRecipe_output_quantizer template algorithm awq_block_size
    sq_alpha (some true) decoder_type, rfl⟩

end NeMoQuant

namespace NeMoFalcon

/-! ## C10: the Falcon transformer layer spec -/

/-- C10: `get_falcon_layer_spec` raises an import error when megatron-core
is unavailable; otherwise it returns a `ModuleSpec` whose module is
`FalconTransformerLayer`, whose self-attention sub-spec uses the causal
attention-mask type with the TE linear/attention submodules and identity
q/k layernorms, and whose submodules carry `post_self_attn_layernorm =
TENorm` — a field the `TransformerLayerSubmodules` constructor call leaves
unset (`none`) and that is only assigned afterwards. -/
theorem falcon_layer_spec_correct :
    (get_falcon_layer_spec false).isOk = false ∧
    falconSubmodulesConstructed.post_self_attn_layernorm = none ∧
    get_falcon_layer_spec true = .ok
      { module := .FalconTransformerLayer
        submodules :=
          { input_layernorm := .TENorm
            self_attention :=
              { module := .SelfAttention
                attn_mask_type := .causal
                submodules :=
                  { linear_qkv := .TEColumnParallelLinear
                    core_attention := .TEDotProductAttention
                    linear_proj := .TERowParallelLinear
                    q_layernorm := .IdentityOp
                    k_layernorm := .IdentityOp } }
            self_attn_bda := .getBiasDropoutAdd
            pre_mlp_layernorm := .TENorm
            mlp :=
              { module := .MLP
                submodules :=
                  { linear_fc1 := .TEColumnParallelLinear
                    linear_fc2 := .TERowParallelLinear } }
            mlp_bda := .getBiasDropoutAdd
            post_self_attn_layernorm := some .TENorm } } :=
  ⟨rfl, rfl, rfl⟩

end NeMoFalcon

